import Mathlib

/-!
Verification of the energy-harvesting dashboard core against its
natural-language specification.

The telemetry pipeline (src/lib/sensorService.ts and the ingestion route
src/app/api/sensor/route.ts) works on plain JavaScript numbers and is
embedded over the rationals; JavaScript `Math.round` (round half toward
positive infinity) is modelled by `jsRound`.  The prediction engine
(src/lib/mockAIService.ts) uses `Math.cos`/`Math.sin` and is embedded over
the reals, with every call to `Math.random()` made an explicit parameter
in `[0, 1)`.
-/

/-- JavaScript `Math.round`: round half toward positive infinity. -/
def jsRound (q : ℚ) : ℚ :=
  ((Int.floor (q + 1/2) : ℤ) : ℚ)

/-! ## Telemetry pipeline (src/lib/sensorService.ts) -/

/-- Raw ESP32 reading, from `ESP32SensorData` in src/types/sensor.ts. -/
structure ESP32SensorData where
  temperature : ℚ
  humidity : ℚ
  bus_voltage : ℚ
  current : ℚ
  power : ℚ
  light_value : ℚ
  light_status : String
  wind_count : ℚ
  hr : ℚ
deriving DecidableEq

/-- Processed record retained by the store, from `ProcessedSensorData` in
src/types/sensor.ts.  The AI-prediction attachment is reduced to its
predicted power, which is all the derived fields consume. -/
structure ProcessedSensorData where
  id : String
  timestamp : String
  deviceId : String
  temperature : ℚ
  humidity : ℚ
  busVoltage : ℚ
  current : ℚ
  power : ℚ
  lightValue : ℚ
  lightStatus : String
  windCount : ℚ
  hour : ℚ
  batteryLevel : ℚ
  solarEfficiency : ℚ
  windEfficiency : ℚ
  totalEfficiency : ℚ
  energyHarvested : ℚ
  costSavings : ℚ
  carbonOffset : ℚ
  isOnline : Bool
  connectionQuality : String
  aiPredictedPower : Option ℚ
  predictionAccuracy : Option ℚ
  efficiencyVsPrediction : Option ℚ
deriving DecidableEq

/-- `maxDataPoints` from SensorDataService: capacity of the retention
store. -/
def maxDataPoints : ℕ := 200

/-- `storeSensorData` (sensorService.ts lines 419-426): unshift the new
reading, then truncate to `maxDataPoints` if over capacity. -/
def storeSensorData (sensorData : List ProcessedSensorData)
    (data : ProcessedSensorData) : List ProcessedSensorData :=
  let s := data :: sensorData
  if maxDataPoints < s.length then s.take maxDataPoints else s

/-- Sequence of appends to the retention store, most recent last in the
argument list (each processed reading goes through `storeSensorData`). -/
def appendAll (sensorData : List ProcessedSensorData)
    (ks : List ProcessedSensorData) : List ProcessedSensorData :=
  ks.foldl storeSensorData sensorData

/-- `calculateBatteryLevel` (sensorService.ts lines 449-454). -/
def calculateBatteryLevel (voltage : ℚ) : ℚ :=
  if 4.2 ≤ voltage then 100
  else if 3.7 ≤ voltage then jsRound ((voltage - 3.7) / 0.5 * 100)
  else if 3.0 ≤ voltage then jsRound ((voltage - 3.0) / 0.7 * 100)
  else 0

/-- `calculateSolarEfficiency` (sensorService.ts lines 459-465). -/
def calculateSolarEfficiency (power : ℚ) (lightStatus : String) : ℚ :=
  if 0 < power ∧ (lightStatus = "bright" ∨ lightStatus = "good") then
    min 25 (power / 1000 * 100)
  else 0

/-- `calculateWindEfficiency` (sensorService.ts lines 470-479). -/
def calculateWindEfficiency (windSpeed : ℚ) : ℚ :=
  if 0 < windSpeed then min 100 (windSpeed / 10 * 100) else 0

/-- `assessConnectionQuality` (sensorService.ts lines 522-529). -/
def assessConnectionQuality (data : ESP32SensorData) : String :=
  if 1000 < data.power then "excellent"
  else if 500 < data.power then "good"
  else if 100 < data.power then "fair"
  else "poor"

/-- `calculatePredictionAccuracy` (mockAIService.ts lines 336-347),
rational arithmetic only. -/
def calculatePredictionAccuracy (actualPower predictedPower : ℚ) : ℚ :=
  if predictedPower = 0 then (if actualPower = 0 then 100 else 0)
  else
    let error := |actualPower - predictedPower| / predictedPower
    let accuracy := max 0 (100 - error * 100)
    jsRound (accuracy * 10) / 10

/-- `calculateEfficiencyVsPrediction` (mockAIService.ts lines 352-361). -/
def calculateEfficiencyVsPrediction (actualEfficiency predictedPower
    power : ℚ) : ℚ :=
  if predictedPower = 0 then 0
  else actualEfficiency - predictedPower / 1000 * 100

/-- `processSensorData` (sensorService.ts lines 294-414), restricted to the
pure derived-metric computation: the generated id, timestamp and the mock
AI prediction's power (produced by the real-time collaborators) enter as
parameters; persistence and listener fan-out have no effect on the
produced record. -/
def processSensorData (rawData : ESP32SensorData) (id timestamp : String)
    (aiPredictedPower : Option ℚ) : ProcessedSensorData :=
  let batteryLevel := calculateBatteryLevel rawData.bus_voltage
  let solarEfficiency :=
    calculateSolarEfficiency rawData.power rawData.light_status
  let windEfficiency := calculateWindEfficiency rawData.wind_count
  let totalEfficiency := jsRound ((solarEfficiency + windEfficiency) / 2)
  let energyHarvested := rawData.power / 1000 * (1 / 3600)
  { id := id
    timestamp := timestamp
    deviceId := "ESP32_001"
    temperature := rawData.temperature
    humidity := rawData.humidity
    busVoltage := rawData.bus_voltage
    current := rawData.current
    power := rawData.power
    lightValue := rawData.light_value
    lightStatus := rawData.light_status
    windCount := rawData.wind_count
    hour := rawData.hr
    batteryLevel := batteryLevel
    solarEfficiency := solarEfficiency
    windEfficiency := windEfficiency
    totalEfficiency := totalEfficiency
    energyHarvested := energyHarvested
    costSavings := energyHarvested * 0.12
    carbonOffset := energyHarvested * 0.92
    isOnline := true
    connectionQuality := assessConnectionQuality rawData
    aiPredictedPower := aiPredictedPower
    predictionAccuracy :=
      aiPredictedPower.map (fun pp => calculatePredictionAccuracy rawData.power pp)
    efficiencyVsPrediction :=
      aiPredictedPower.map
        (fun pp => calculateEfficiencyVsPrediction totalEfficiency pp rawData.power) }

/-! ## Ingestion validator (src/app/api/sensor/route.ts, validateESP32Data) -/

/-- Runtime value of a numeric JSON field as the validator can observe it:
absent (undefined/null), a non-NaN number, or NaN.  (The route's guard for
a non-object body, lines 104-107, precedes the per-field checks modelled
here.) -/
inductive JNum where
  | missing
  | nanv
  | num (q : ℚ)
deriving DecidableEq

/-- Runtime value of the textual `light_status` field: absent, a string,
or a value of some other runtime type. -/
inductive JStr where
  | missing
  | nonstring
  | str (s : String)
deriving DecidableEq

/-- The field is `undefined` or `null`. -/
def JNum.isMissing : JNum → Bool
  | .missing => true
  | _ => false

/-- `typeof x === "number" && !isNaN(x)`. -/
def JNum.isValidNumber : JNum → Bool
  | .num _ => true
  | _ => false

/-- JavaScript `x < c` after reading the field as a number: comparisons
against NaN (absent or NaN field) are false. -/
def JNum.ltb (f : JNum) (c : ℚ) : Bool :=
  match f with
  | .num q => decide (q < c)
  | _ => false

/-- JavaScript `x > c` after reading the field as a number. -/
def JNum.gtb (f : JNum) (c : ℚ) : Bool :=
  match f with
  | .num q => decide (c < q)
  | _ => false

/-- The field is `undefined` or `null`. -/
def JStr.isMissing : JStr → Bool
  | .missing => true
  | _ => false

/-- `typeof x === "string"`. -/
def JStr.isString : JStr → Bool
  | .str _ => true
  | _ => false

/-- Inbound JSON body with the nine expected fields. -/
structure RawBody where
  temperature : JNum
  humidity : JNum
  bus_voltage : JNum
  current : JNum
  power : JNum
  light_value : JNum
  light_status : JStr
  wind_count : JNum
  hr : JNum
deriving DecidableEq

def fieldTemperature : String := "temperature"
def fieldHumidity : String := "humidity"
def fieldBusVoltage : String := "bus_voltage"
def fieldCurrent : String := "current"
def fieldPower : String := "power"
def fieldLightValue : String := "light_value"
def fieldLightStatus : String := "light_status"
def fieldWindCount : String := "wind_count"
def fieldHr : String := "hr"

/-- Error message for a missing required field. -/
def missingMsg (field : String) : String :=
  "Missing required field: " ++ field

def msgTemperatureNumber : String := "Temperature must be a valid number"
def msgHumidityNumber : String := "Humidity must be a valid number"
def msgLightValueNumber : String := "Light value must be a valid number"
def msgLightStatusString : String := "Light status must be a string"
def msgWindCountNumber : String := "Wind count must be a valid number"
def msgHourNumber : String := "Hour must be a valid number"
def msgBusVoltageNumber : String := "Bus voltage must be a valid number"
def msgCurrentNumber : String := "Current must be a valid number"
def msgPowerNumber : String := "Power must be a valid number"

def msgTemperatureRange : String :=
  "Temperature out of reasonable range (-50°C to 100°C)"
def msgHumidityRange : String :=
  "Humidity out of reasonable range (0% to 100%)"
def msgLightValueRange : String :=
  "Light value out of reasonable range (0 to 4095)"
def msgWindCountRange : String :=
  "Wind count out of reasonable range (0 to 10000)"
def msgBusVoltageRange : String :=
  "Bus voltage out of reasonable range (0V to 20V)"
def msgHourRange : String := "Hour out of reasonable range (0 to 23)"

/-- The `requiredFields` presence checks of `validateESP32Data`
(route.ts lines 110-127), error messages in loop order. -/
def requiredFieldChecks (d : RawBody) : List String :=
  (if d.temperature.isMissing then [missingMsg fieldTemperature] else []) ++
  (if d.humidity.isMissing then [missingMsg fieldHumidity] else []) ++
  (if d.bus_voltage.isMissing then [missingMsg fieldBusVoltage] else []) ++
  (if d.current.isMissing then [missingMsg fieldCurrent] else []) ++
  (if d.power.isMissing then [missingMsg fieldPower] else []) ++
  (if d.light_value.isMissing then [missingMsg fieldLightValue] else []) ++
  (if d.light_status.isMissing then [missingMsg fieldLightStatus] else []) ++
  (if d.wind_count.isMissing then [missingMsg fieldWindCount] else []) ++
  (if d.hr.isMissing then [missingMsg fieldHr] else [])

/-- The type checks (route.ts lines 130-185) followed by the range checks
(lines 187-217) of `validateESP32Data`, error messages in program order:
the collected violated type and range constraints. -/
def typeAndRangeChecks (d : RawBody) : List String :=
  (if !d.temperature.isValidNumber then [msgTemperatureNumber] else []) ++
  (if !d.humidity.isValidNumber then [msgHumidityNumber] else []) ++
  (if !d.light_value.isValidNumber then [msgLightValueNumber] else []) ++
  (if !d.light_status.isString then [msgLightStatusString] else []) ++
  (if !d.wind_count.isValidNumber then [msgWindCountNumber] else []) ++
  (if !d.hr.isValidNumber then [msgHourNumber] else []) ++
  (if !d.bus_voltage.isValidNumber then [msgBusVoltageNumber] else []) ++
  (if !d.current.isValidNumber then [msgCurrentNumber] else []) ++
  (if !d.power.isValidNumber then [msgPowerNumber] else []) ++
  (if d.temperature.ltb (-50) || d.temperature.gtb 100 then
    [msgTemperatureRange] else []) ++
  (if d.humidity.ltb 0 || d.humidity.gtb 100 then
    [msgHumidityRange] else []) ++
  (if d.light_value.ltb 0 || d.light_value.gtb 4095 then
    [msgLightValueRange] else []) ++
  (if d.wind_count.ltb 0 || d.wind_count.gtb 10000 then
    [msgWindCountRange] else []) ++
  (if d.bus_voltage.ltb 0 || d.bus_voltage.gtb 20 then
    [msgBusVoltageRange] else []) ++
  (if d.hr.ltb 0 || d.hr.gtb 23 then [msgHourRange] else [])

/-- `validateESP32Data` (route.ts lines 97-223): errors are pushed onto a
single array in program order (missing-field checks in the
`requiredFields` order, then type checks, then range checks) and the
request is valid exactly when that array stays empty. -/
def validateESP32Data (d : RawBody) : Bool × List String :=
  let errors := requiredFieldChecks d ++ typeAndRangeChecks d
  (errors.isEmpty, errors)

/-- Numeric content of a validated field (every field of a body that
passed validation is `JNum.num`). -/
def JNum.getNum : JNum → ℚ
  | .num q => q
  | _ => 0

/-- String content of a validated `light_status` field. -/
def JStr.getStr : JStr → String
  | .str s => s
  | _ => ""

/-- A validated body viewed as the `ESP32SensorData` the route hands to
`sensorService.processSensorData`. -/
def toESP32 (b : RawBody) : ESP32SensorData :=
  { temperature := b.temperature.getNum
    humidity := b.humidity.getNum
    bus_voltage := b.bus_voltage.getNum
    current := b.current.getNum
    power := b.power.getNum
    light_value := b.light_value.getNum
    light_status := b.light_status.getStr
    wind_count := b.wind_count.getNum
    hr := b.hr.getNum }

/-- The ingestion `POST` handler's effect on the retention store
(route.ts lines 5-35): an invalid body is rejected with status 400 and
the store untouched; a valid body is processed and appended. -/
def POSTstep (store : List ProcessedSensorData) (body : RawBody)
    (id timestamp : String) (aiPredictedPower : Option ℚ) :
    List ProcessedSensorData × Bool :=
  if (validateESP32Data body).1 then
    (storeSensorData store
      (processSensorData (toESP32 body) id timestamp aiPredictedPower), true)
  else (store, false)

/-! ## Prediction engine (src/lib/mockAIService.ts) -/

noncomputable section

/-- JavaScript `Math.round(x * 100) / 100` (round to 2 decimal places). -/
def round2 (x : ℝ) : ℝ :=
  ((Int.floor (x * 100 + 1/2) : ℤ) : ℝ) / 100

/-- JavaScript `Math.round(x * 10) / 10` (round to 1 decimal place). -/
def round1 (x : ℝ) : ℝ :=
  ((Int.floor (x * 10 + 1/2) : ℤ) : ℝ) / 10

/-- The slice of a `ProcessedSensorData` record the prediction engine
reads: the environmental fields consumed by `generatePrediction`, the
total efficiency and the hour of the record's timestamp
(`new Date(timestamp).getHours()`) consumed by
`calculateHistoricalAdjustment`. -/
structure SensorReading where
  temperature : ℝ
  humidity : ℝ
  windCount : ℝ
  lightValue : ℝ
  lightStatus : String
  totalEfficiency : ℝ
  tsHour : ℤ

/-- `AIPrediction` from src/types/sensor.ts. -/
structure AIPrediction where
  source : String
  temperature : ℝ
  irradiance : ℝ
  humidity : ℝ
  hr : ℤ
  hr_sin : ℝ
  hr_cos : ℝ
  predicted_power : ℝ

/-- JavaScript `a || b` for a possibly-absent number: the fallback is used
when the looked-up value is absent or falsy (0). -/
def jsOrReal (v : Option ℝ) (fallback : ℝ) : ℝ :=
  match v with
  | some x => if x = 0 then fallback else x
  | none => fallback

/-- The `irradianceMap` literal in `estimateIrradiance` (mockAIService.ts
lines 197-206); `u` is the per-bucket `Math.random()` draw. -/
def irradianceMapLookup (u : ℝ) (lightStatus : String) : Option ℝ :=
  match lightStatus with
  | "bright" => some (800 + u * 200)
  | "good" => some (600 + u * 150)
  | "moderate" => some (400 + u * 100)
  | "low" => some (200 + u * 100)
  | "night" => some 0
  | _ => none

/-- `estimateIrradiance` (mockAIService.ts lines 197-206):
`irradianceMap[lightStatus] || 400`. -/
def estimateIrradiance (u : ℝ) (lightStatus : String) : ℝ :=
  jsOrReal (irradianceMapLookup u lightStatus) 400

/-- `calculateBasePower` (mockAIService.ts lines 211-222). -/
def calculateBasePower (irradiance : ℝ) (hour : ℤ) : ℝ :=
  let panelEfficiency : ℝ := 0.15
  let panelArea : ℝ := 0.13
  let solarNoon : ℝ := 12
  let timeEfficiency :=
    Real.cos (((hour : ℝ) - solarNoon) * Real.pi / 12) * 0.3 + 0.7
  irradiance * panelEfficiency * panelArea * timeEfficiency

/-- `calculateTemperatureEffect` (mockAIService.ts lines 227-232). -/
def calculateTemperatureEffect (temperature : ℝ) : ℝ :=
  let tempCoeff : ℝ := -0.004
  let tempDiff := temperature - 25
  1 + tempCoeff * tempDiff

/-- `calculateHumidityEffect` (mockAIService.ts lines 237-240). -/
def calculateHumidityEffect (humidity : ℝ) : ℝ :=
  1 - humidity / 100 * 0.05

/-- `calculateWindEffect` (mockAIService.ts lines 245-250). -/
def calculateWindEffect (windSpeed : ℝ) : ℝ :=
  if windSpeed < 5 then 1.0
  else if windSpeed < 15 then 1.02
  else 0.98

/-- `calculateHistoricalAdjustment` (mockAIService.ts lines 255-274):
clamped mean total-efficiency of the stored entries whose timestamp hour
is within one hour of the target hour. -/
def calculateHistoricalAdjustment (historicalData : List SensorReading)
    (hour : ℤ) : ℝ :=
  if historicalData.length = 0 then 1.0
  else
    let similarHourData :=
      historicalData.filter (fun d => decide (|d.tsHour - hour| ≤ 1))
    if similarHourData.length = 0 then 1.0
    else
      let avgEfficiency :=
        (similarHourData.map (fun d => d.totalEfficiency)).sum /
          (similarHourData.length : ℝ)
      let baselineEfficiency : ℝ := 15
      max 0.7 (min 1.3 (avgEfficiency / baselineEfficiency))

/-- `generatePrediction` (mockAIService.ts lines 133-173); `u1` is the
`Math.random()` draw inside `estimateIrradiance`, `u` the one for the
±15 percent variation. -/
def generatePrediction (historicalData : List SensorReading)
    (sensorData : SensorReading) (hour : ℤ) (u1 u : ℝ) : AIPrediction :=
  let irradiance := estimateIrradiance u1 sensorData.lightStatus
  let basePower := calculateBasePower irradiance hour
  let tempEffect := calculateTemperatureEffect sensorData.temperature
  let humidityEffect := calculateHumidityEffect sensorData.humidity
  let windEffect := calculateWindEffect sensorData.windCount
  let historicalAdjustment := calculateHistoricalAdjustment historicalData hour
  let predictedPower :=
    basePower * tempEffect * humidityEffect * windEffect * historicalAdjustment
  let variation := 0.85 + u * 0.3
  let clamped := max 0 (predictedPower * variation)
  { source := "mock-ai-prediction"
    temperature := sensorData.temperature
    irradiance := irradiance
    humidity := sensorData.humidity
    hr := hour
    hr_sin := Real.sin (2 * Real.pi * (hour : ℝ) / 24)
    hr_cos := Real.cos (2 * Real.pi * (hour : ℝ) / 24)
    predicted_power := round2 clamped }

/-- `generateNightPrediction` (mockAIService.ts lines 178-192). -/
def generateNightPrediction (sensorData : SensorReading) (hour : ℤ) :
    AIPrediction :=
  { source := "mock-ai-night"
    temperature := sensorData.temperature
    irradiance := 0
    humidity := sensorData.humidity
    hr := hour
    hr_sin := Real.sin (2 * Real.pi * (hour : ℝ) / 24)
    hr_cos := Real.cos (2 * Real.pi * (hour : ℝ) / 24)
    predicted_power := 0 }

/-- `generateMockSensorDataForHour` (mockAIService.ts lines 279-331);
`r1 r2 r3 r4` are the `Math.random()` draws for temperature, humidity,
light value and wind speed.  The synthesized record's timestamp is the
current instant; its hour is not consumed downstream and is modelled
as 0. -/
def generateMockSensorDataForHour (hour : ℤ) (r1 r2 r3 r4 : ℝ) :
    SensorReading :=
  if 6 ≤ hour ∧ hour < 18 then
    { temperature := round1 (20 + ((hour : ℝ) - 6) * 0.8 + r1 * 5)
      humidity :=
        round1 (50 + Real.sin (((hour : ℝ) - 6) * Real.pi / 12) * 20 + r2 * 10)
      windCount := round1 (3 + r4 * 8)
      lightValue :=
        round1 (if hour < 10 then 3000 + r3 * 1000
          else if hour < 14 then 2000 + r3 * 1000 else 1000 + r3 * 1000)
      lightStatus :=
        if hour < 10 then "bright" else if hour < 14 then "good" else "moderate"
      totalEfficiency := 0
      tsHour := 0 }
  else
    { temperature := round1 (15 + r1 * 5)
      humidity := round1 (70 + r2 * 20)
      windCount := round1 (2 + r4 * 6)
      lightValue := round1 (r3 * 100)
      lightStatus := "night"
      totalEfficiency := 0
      tsHour := 0 }

/-- `getHourPrediction` (mockAIService.ts lines 120-128): synthesize a
reading for the requested hour and run `generatePrediction` on it —
with no night-time branch. -/
def getHourPrediction (historicalData : List SensorReading) (hour : ℤ)
    (r1 r2 r3 r4 u1 u : ℝ) : AIPrediction :=
  generatePrediction historicalData
    (generateMockSensorDataForHour hour r1 r2 r3 r4) hour u1 u

/-- `CACHE_DURATION`: five minutes in milliseconds. -/
def CACHE_DURATION : ℤ := 5 * 60 * 1000

/-- Mutable state of the `MockAIService` singleton: the historical data
snapshot and the prediction cache (hour bucket to prediction plus
creation timestamp, the `current_h` keys). -/
structure AIState where
  historicalData : List SensorReading
  predictionCache : ℤ → Option (AIPrediction × ℤ)

/-- `getPredictionFromSensor` (mockAIService.ts lines 41-67): at night
hours return a night prediction without touching the cache, otherwise
generate a prediction and cache it under the current hour with the
current timestamp `now`. -/
def getPredictionFromSensor (st : AIState) (sensorData : SensorReading)
    (hour now : ℤ) (u1 u : ℝ) : AIPrediction × AIState :=
  if 18 ≤ hour ∨ hour < 6 then (generateNightPrediction sensorData hour, st)
  else
    let prediction := generatePrediction st.historicalData sensorData hour u1 u
    (prediction,
      { st with predictionCache := fun h =>
          if h = hour then some (prediction, now) else st.predictionCache h })

/-- The cache probe at the top of `getCurrentHourPrediction`
(mockAIService.ts lines 77-80): a stored entry is returned only while its
age is below `CACHE_DURATION`. -/
def cacheLookup (st : AIState) (hour now : ℤ) : Option AIPrediction :=
  match st.predictionCache hour with
  | some (d, ts) => if now - ts < CACHE_DURATION then some d else none
  | none => none

/-- `getCurrentHourPrediction` (mockAIService.ts lines 72-89): serve from
the cache when fresh, otherwise regenerate from the most recent
historical reading, or return nothing when no history exists. -/
def getCurrentHourPrediction (st : AIState) (hour now : ℤ) (u1 u : ℝ) :
    Option AIPrediction × AIState :=
  match cacheLookup st hour now with
  | some d => (some d, st)
  | none =>
    match st.historicalData.getLast? with
    | some latestData =>
      let r := getPredictionFromSensor st latestData hour now u1 u
      (some r.1, r.2)
    | none => (none, st)

/-- `cleanupCache` (mockAIService.ts lines 366-373): drop every entry
strictly older than `CACHE_DURATION`. -/
def cleanupCache (st : AIState) (now : ℤ) : AIState :=
  { st with predictionCache := fun h =>
      match st.predictionCache h with
      | some (d, ts) =>
        if CACHE_DURATION < now - ts then none else some (d, ts)
      | none => none }

/-- A nominal prediction-engine reading used to instantiate theorems:
bright light, 25 degrees, dry, calm, recorded at timestamp hour 0. -/
def sampleReading : SensorReading :=
  { temperature := 25
    humidity := 0
    windCount := 0
    lightValue := 820
    lightStatus := "bright"
    totalEfficiency := 0
    tsHour := 0 }

/-- A stale cached prediction used to instantiate cache theorems. -/
def stalePrediction : AIPrediction :=
  { source := "mock-ai-prediction"
    temperature := 25
    irradiance := 800
    humidity := 0
    hr := 12
    hr_sin := 0
    hr_cos := 0
    predicted_power := 99 }

/-- A service state whose hour-12 cache entry was created at time 0. -/
def staleState : AIState :=
  { historicalData := [sampleReading]
    predictionCache := fun h =>
      if h = 12 then some (stalePrediction, 0) else none }

/-- A reading recorded at timestamp hour 12 with total efficiency 15,
matching a target hour of 12. -/
def matchReading : SensorReading :=
  { temperature := 20
    humidity := 50
    windCount := 3
    lightValue := 100
    lightStatus := "bright"
    totalEfficiency := 15
    tsHour := 12 }

end

/-! ## Concrete sample values used to instantiate the theorems -/

def emptyStr : String := ""

def brightLabel : String := "bright"

/-- A nominal in-range raw reading. -/
def sampleESP32 : ESP32SensorData :=
  { temperature := 25
    humidity := 50
    bus_voltage := 5
    current := 10
    power := 100
    light_value := 820
    light_status := brightLabel
    wind_count := 3
    hr := 12 }

/-- The processed record of the nominal reading. -/
def sampleProcessed : ProcessedSensorData :=
  processSensorData sampleESP32 emptyStr emptyStr none

/-- A nominal valid request body. -/
def sampleBody : RawBody :=
  { temperature := .num 25
    humidity := .num 50
    bus_voltage := .num 5
    current := .num 10
    power := .num 100
    light_value := .num 820
    light_status := .str brightLabel
    wind_count := .num 3
    hr := .num 12 }

/-- The nominal body with an out-of-range humidity and hour. -/
def sampleBadBody : RawBody :=
  { sampleBody with humidity := .num 150, hr := .num 24 }

/-- A request body whose nine fields are all present with the given
numeric values and the given light-status string. -/
def mkBody (t h bv cur pw lv wc hour : ℚ) (ls : String) : RawBody :=
  { temperature := .num t
    humidity := .num h
    bus_voltage := .num bv
    current := .num cur
    power := .num pw
    light_value := .num lv
    light_status := .str ls
    wind_count := .num wc
    hr := .num hour }

/-! ## Claims about the metrics calculator (C3, C4, C9) -/

/-- C3, counterexample: at bus voltage 3.7 the code computes
`round(((3.7 - 3.7) / 0.5) * 100) = 0`, so the claimed strictly-between
0 and 100 value at 3.7 is refuted. -/
theorem battery_level_c3_counterexample :
    ¬ (0 < calculateBatteryLevel 3.7 ∧ calculateBatteryLevel 3.7 < 100) := by
  norm_num [calculateBatteryLevel, jsRound]

/-- C3 (amended): the battery mapping sends voltages below 3.0 and
voltage 3.0 to 0 and voltages at or above 4.2 to 100; on [3.0, 3.7) it is
the rounded linear ramp `round((v - 3.0)/0.7 * 100)` and on [3.7, 4.2)
the rounded linear ramp `round((v - 3.7)/0.5 * 100)`; in particular
voltage 3.7 maps to 0, not to a value strictly between 0 and 100. -/
theorem battery_level_c3_amended :
    calculateBatteryLevel 3 = 0 ∧ calculateBatteryLevel 3.7 = 0 ∧
    ∀ v : ℚ,
      (v < 3 → calculateBatteryLevel v = 0) ∧
      (4.2 ≤ v → calculateBatteryLevel v = 100) ∧
      (3 ≤ v → v < 3.7 →
        calculateBatteryLevel v = jsRound ((v - 3.0) / 0.7 * 100)) ∧
      (3.7 ≤ v → v < 4.2 →
        calculateBatteryLevel v = jsRound ((v - 3.7) / 0.5 * 100)) := by
  refine ⟨by norm_num [calculateBatteryLevel, jsRound],
    by norm_num [calculateBatteryLevel, jsRound], fun v => ⟨?_, ?_, ?_, ?_⟩⟩
  · intro h
    unfold calculateBatteryLevel
    rw [if_neg (not_le.mpr (by linarith)), if_neg (not_le.mpr (by linarith)),
      if_neg (not_le.mpr (by linarith))]
  · intro h
    unfold calculateBatteryLevel
    rw [if_pos h]
  · intro h1 h2
    unfold calculateBatteryLevel
    rw [if_neg (not_le.mpr (by linarith)), if_neg (not_le.mpr (by linarith)),
      if_pos (by linarith)]
  · intro h1 h2
    unfold calculateBatteryLevel
    rw [if_neg (not_le.mpr (by linarith)), if_pos h1]

/-- Witness for the amended C3 theorem at voltages 2, 4.5, 3.5, 3.9. -/
theorem battery_level_c3_amended_witness :
    calculateBatteryLevel 2 = 0 ∧ calculateBatteryLevel 4.5 = 100 ∧
    calculateBatteryLevel 3.5 = jsRound ((3.5 - 3.0) / 0.7 * 100) ∧
    calculateBatteryLevel 3.9 = jsRound ((3.9 - 3.7) / 0.5 * 100) :=
  ⟨(battery_level_c3_amended.2.2 2).1 (by norm_num),
   (battery_level_c3_amended.2.2 4.5).2.1 (by norm_num),
   (battery_level_c3_amended.2.2 3.5).2.2.1 (by norm_num) (by norm_num),
   (battery_level_c3_amended.2.2 3.9).2.2.2 (by norm_num) (by norm_num)⟩

/-- C4, counterexample: at power 500 with bright light the code yields
`min(25, 50) = 25`, which is neither the claimed `min(100, 50) = 50` nor
0; at wind signal 5 the code yields `min(100, 50) = 50`, which is neither
the claimed `min(100, 25) = 25` nor 0. -/
theorem efficiency_formulas_c4_counterexample :
    calculateSolarEfficiency 500 brightLabel ≠ min 100 (500 / 1000 * 100) ∧
    calculateSolarEfficiency 500 brightLabel ≠ 0 ∧
    calculateWindEfficiency 5 ≠ min 100 (5 / 20 * 100) ∧
    calculateWindEfficiency 5 ≠ 0 := by
  norm_num [calculateSolarEfficiency, calculateWindEfficiency, brightLabel,
    min_def]

/-- C4 (amended): solar efficiency is 0 unless power is positive and the
light status is bright or good, in which case it is
`min(25, power/1000 * 100)`; wind efficiency is 0 unless the wind signal
is positive, in which case it is `min(100, wind/10 * 100)`. -/
theorem efficiency_formulas_c4_amended :
    ∀ (p : ℚ) (s : String),
      (0 < p → (s = "bright" ∨ s = "good") →
        calculateSolarEfficiency p s = min 25 (p / 1000 * 100)) ∧
      (¬ (0 < p ∧ (s = "bright" ∨ s = "good")) →
        calculateSolarEfficiency p s = 0) ∧
      ∀ w : ℚ,
        (0 < w → calculateWindEfficiency w = min 100 (w / 10 * 100)) ∧
        (w ≤ 0 → calculateWindEfficiency w = 0) := by
  intro p s
  refine ⟨fun h1 h2 => ?_, fun h => ?_, fun w => ⟨fun h => ?_, fun h => ?_⟩⟩
  · unfold calculateSolarEfficiency
    rw [if_pos ⟨h1, h2⟩]
  · unfold calculateSolarEfficiency
    rw [if_neg h]
  · unfold calculateWindEfficiency
    rw [if_pos h]
  · unfold calculateWindEfficiency
    rw [if_neg (not_lt.mpr h)]

/-- Witness for the amended C4 theorem: bright light at power 100, an
unrecognized label, wind 3 and wind 0. -/
theorem efficiency_formulas_c4_amended_witness :
    calculateSolarEfficiency 100 brightLabel = min 25 (100 / 1000 * 100) ∧
    calculateSolarEfficiency 100 emptyStr = 0 ∧
    calculateWindEfficiency 3 = min 100 (3 / 10 * 100) ∧
    calculateWindEfficiency 0 = 0 :=
  ⟨(efficiency_formulas_c4_amended 100 brightLabel).1 (by norm_num)
      (Or.inl rfl),
   (efficiency_formulas_c4_amended 100 emptyStr).2.1 (by simp [emptyStr]),
   ((efficiency_formulas_c4_amended 100 emptyStr).2.2 3).1 (by norm_num),
   ((efficiency_formulas_c4_amended 100 emptyStr).2.2 0).2 le_rfl⟩

/-- C9, counterexample: for actual 1 and predicted 3 the code rounds the
accuracy to one decimal place, returning 33.3 rather than the exact
`max(0, 100 - |1-3|/3*100) = 100/3` the claim states. -/
theorem accuracy_formula_c9_counterexample :
    calculatePredictionAccuracy 1 3 ≠ max 0 (100 - |1 - 3| / 3 * 100) := by
  norm_num [calculatePredictionAccuracy, jsRound, max_def]

/-- C9 (amended): for nonzero predicted power the accuracy is
`max(0, 100 - |actual-predicted|/predicted * 100)` rounded to one decimal
place (half toward positive infinity); when predicted power is 0 it is
100 if the actual power is 0 and 0 otherwise; in particular
accuracy(0,0) = 100, accuracy(5,0) = 0 and accuracy(100,100) = 100. -/
theorem accuracy_formula_c9_amended :
    (∀ a p : ℚ, p ≠ 0 →
      calculatePredictionAccuracy a p =
        jsRound (max 0 (100 - |a - p| / p * 100) * 10) / 10) ∧
    (∀ a : ℚ, calculatePredictionAccuracy a 0 = if a = 0 then 100 else 0) ∧
    calculatePredictionAccuracy 0 0 = 100 ∧
    calculatePredictionAccuracy 5 0 = 0 ∧
    calculatePredictionAccuracy 100 100 = 100 := by
  refine ⟨fun a p hp => ?_, fun a => ?_,
    by norm_num [calculatePredictionAccuracy, jsRound, max_def],
    by norm_num [calculatePredictionAccuracy, jsRound, max_def],
    by norm_num [calculatePredictionAccuracy, jsRound, max_def]⟩
  · unfold calculatePredictionAccuracy
    rw [if_neg hp]
  · unfold calculatePredictionAccuracy
    rw [if_pos rfl]

/-- Witness for the amended C9 theorem at actual 1, predicted 3 and at
predicted 0 with actual 7. -/
theorem accuracy_formula_c9_amended_witness :
    calculatePredictionAccuracy 1 3 =
      jsRound (max 0 (100 - |1 - 3| / 3 * 100) * 10) / 10 ∧
    calculatePredictionAccuracy 7 0 = if (7 : ℚ) = 0 then 100 else 0 :=
  ⟨accuracy_formula_c9_amended.1 1 3 (by norm_num),
   accuracy_formula_c9_amended.2.1 7⟩

/-! ## Claims about the retention store (C1) -/

/-- A single append always leaves the new reading at the head. -/
theorem storeSensorData_head (st : List ProcessedSensorData)
    (d : ProcessedSensorData) : (storeSensorData st d).head? = some d := by
  show (if maxDataPoints < (d :: st).length then (d :: st).take maxDataPoints
    else (d :: st)).head? = some d
  split
  · rw [show (maxDataPoints : ℕ) = 199 + 1 from rfl, List.take_succ_cons]
    rfl
  · rfl

/-- A single append always leaves at most `maxDataPoints` readings. -/
theorem storeSensorData_length_le (st : List ProcessedSensorData)
    (d : ProcessedSensorData) :
    (storeSensorData st d).length ≤ maxDataPoints := by
  show (if maxDataPoints < (d :: st).length then (d :: st).take maxDataPoints
    else (d :: st)).length ≤ maxDataPoints
  split
  · rw [List.length_take]
    exact min_le_left _ _
  · next h => omega

/-- Appending to a store at capacity keeps the newest 199 previous
readings behind the new one. -/
theorem storeSensorData_full (st : List ProcessedSensorData)
    (d : ProcessedSensorData) (h : st.length = maxDataPoints) :
    storeSensorData st d = d :: st.take 199 := by
  show (if maxDataPoints < (d :: st).length then (d :: st).take maxDataPoints
    else (d :: st)) = d :: st.take 199
  rw [if_pos (show maxDataPoints < (d :: st).length by
    rw [List.length_cons, h]; exact Nat.lt_succ_self _)]
  rw [show (maxDataPoints : ℕ) = 199 + 1 from rfl, List.take_succ_cons]

/-- Bursts of appends never push the store beyond capacity. -/
theorem appendAll_length_le (ks : List ProcessedSensorData) :
    ∀ st : List ProcessedSensorData, st.length ≤ maxDataPoints →
      (appendAll st ks).length ≤ maxDataPoints := by
  induction ks with
  | nil => intro st h; exact h
  | cons d ks ih =>
    intro st h
    exact ih (storeSensorData st d) (storeSensorData_length_le st d)

/-- Appending `k ≤ 200` readings to a store at capacity leaves the fresh
readings, most recent first, followed by the newest `200 - k` previous
readings. -/
theorem appendAll_full (ks : List ProcessedSensorData) :
    ∀ prev : List ProcessedSensorData, prev.length = maxDataPoints →
      ks.length ≤ maxDataPoints →
      appendAll prev ks =
        ks.reverse ++ prev.take (maxDataPoints - ks.length) := by
  induction ks with
  | nil =>
    intro prev hprev _
    have hmd : maxDataPoints = 200 := rfl
    show prev = [].reverse ++ prev.take (maxDataPoints - 0)
    rw [List.reverse_nil, List.nil_append, Nat.sub_zero, ← hprev,
      List.take_length]
  | cons d ks ih =>
    intro prev hprev hk
    have hmd : maxDataPoints = 200 := rfl
    have hk199 : ks.length ≤ 199 := by
      rw [List.length_cons] at hk
      omega
    have step : appendAll prev (d :: ks) =
        appendAll (d :: prev.take 199) ks := by
      unfold appendAll
      rw [List.foldl_cons, storeSensorData_full prev d hprev]
    have hlen : (d :: prev.take 199).length = maxDataPoints := by
      rw [List.length_cons, List.length_take, hprev]
      omega
    rw [step, ih (d :: prev.take 199) hlen (by omega)]
    rw [show (maxDataPoints : ℕ) - ks.length = (199 - ks.length) + 1 by omega]
    rw [List.take_succ_cons, List.take_take,
      show min (199 - ks.length) 199 = 199 - ks.length by omega]
    rw [List.reverse_cons, List.append_assoc, List.singleton_append,
      show (maxDataPoints : ℕ) - (d :: ks).length = 199 - ks.length by
        rw [List.length_cons]; omega]

/-- C1: every append places the new reading at the head and keeps at most
200 entries; appending `k ≤ 200` readings to a store already holding 200
leaves exactly 200 entries — the `k` fresh readings, most recent first,
followed by the newest `200 - k` of the previous contents — and repeated
appends of any burst size never exceed the capacity. -/
theorem retention_store_c1 :
    (∀ (st : List ProcessedSensorData) (d : ProcessedSensorData),
      (storeSensorData st d).head? = some d ∧
      (storeSensorData st d).length ≤ maxDataPoints) ∧
    (∀ prev : List ProcessedSensorData, prev.length = maxDataPoints →
      ∀ ks : List ProcessedSensorData, ks.length ≤ maxDataPoints →
        appendAll prev ks =
          ks.reverse ++ prev.take (maxDataPoints - ks.length) ∧
        (appendAll prev ks).length = maxDataPoints) ∧
    (∀ st : List ProcessedSensorData, st.length ≤ maxDataPoints →
      ∀ ks : List ProcessedSensorData,
        (appendAll st ks).length ≤ maxDataPoints) := by
  refine ⟨fun st d => ⟨storeSensorData_head st d, storeSensorData_length_le st d⟩,
    fun prev hprev ks hk => ⟨appendAll_full ks prev hprev hk, ?_⟩,
    fun st h ks => appendAll_length_le ks st h⟩
  rw [appendAll_full ks prev hprev hk, List.length_append,
    List.length_reverse, List.length_take, hprev]
  have hmd : maxDataPoints = 200 := rfl
  omega

/-- Witness for C1: a store of 200 identical readings receiving one more
reading keeps exactly 200 entries with the new reading first. -/
theorem retention_store_c1_witness :
    (List.replicate 200 sampleProcessed).length = maxDataPoints ∧
    [sampleProcessed].length ≤ maxDataPoints ∧
    appendAll (List.replicate 200 sampleProcessed) [sampleProcessed] =
      [sampleProcessed].reverse ++
        (List.replicate 200 sampleProcessed).take
          (maxDataPoints - [sampleProcessed].length) ∧
    (appendAll (List.replicate 200 sampleProcessed)
      [sampleProcessed]).length = maxDataPoints := by
  refine ⟨by rw [List.length_replicate]; rfl, by decide, ?_, ?_⟩
  · exact (retention_store_c1.2.1 _ (by rw [List.length_replicate]; rfl) _
      (by decide)).1
  · exact (retention_store_c1.2.1 _ (by rw [List.length_replicate]; rfl) _
      (by decide)).2

/-! ## Claims about the ingestion validator (C2, C10) -/

/-- C2: the validator collects every violated type and range constraint
instead of stopping at the first: a reading that is in range except for
humidity 150 and hour 24 is rejected with exactly the humidity-range and
hour-range messages, in that order; any humidity-range or hour-range
violation puts its message in the returned list; every message of a
violated type or range check appears in the returned list; and a rejected
request leaves the retention store untouched (the validator itself is a
pure function of the body). -/
theorem validator_c2 :
    (∀ (t bv cur pw lv wc : ℚ) (ls : String),
      -50 ≤ t → t ≤ 100 → 0 ≤ lv → lv ≤ 4095 → 0 ≤ wc → wc ≤ 10000 →
      0 ≤ bv → bv ≤ 20 →
      validateESP32Data (mkBody t 150 bv cur pw lv wc 24 ls) =
        (false, [msgHumidityRange, msgHourRange])) ∧
    (∀ d : RawBody, (d.humidity.ltb 0 || d.humidity.gtb 100) = true →
      msgHumidityRange ∈ (validateESP32Data d).2) ∧
    (∀ d : RawBody, (d.hr.ltb 0 || d.hr.gtb 23) = true →
      msgHourRange ∈ (validateESP32Data d).2) ∧
    (∀ (d : RawBody) (msg : String), msg ∈ typeAndRangeChecks d →
      msg ∈ (validateESP32Data d).2) ∧
    (∀ (store : List ProcessedSensorData) (d : RawBody) (id ts : String)
      (app : Option ℚ), (validateESP32Data d).1 = false →
      POSTstep store d id ts app = (store, false)) := by
  refine ⟨?_, ?_, ?_, ?_, ?_⟩
  · intro t bv cur pw lv wc ls h1 h2 h3 h4 h5 h6 h7 h8
    unfold validateESP32Data requiredFieldChecks typeAndRangeChecks mkBody
    norm_num [JNum.isMissing, JNum.isValidNumber, JNum.ltb, JNum.gtb,
      JStr.isMissing, JStr.isString, not_lt.mpr h1, not_lt.mpr h2,
      not_lt.mpr h3, not_lt.mpr h4, not_lt.mpr h5, not_lt.mpr h6,
      not_lt.mpr h7, not_lt.mpr h8]
  · intro d h
    simp only [validateESP32Data]
    refine List.mem_append_right _ ?_
    simp [typeAndRangeChecks, h]
  · intro d h
    simp only [validateESP32Data]
    refine List.mem_append_right _ ?_
    simp [typeAndRangeChecks, h]
  · intro d msg hm
    exact List.mem_append_right _ hm
  · intro store d id ts app h
    unfold POSTstep
    rw [h]
    rfl

/-- Witness for C2: the nominal reading with humidity 150 and hour 24,
and a reading with bus voltage 30 exercising the generic membership
conjunct. -/
theorem validator_c2_witness :
    validateESP32Data (mkBody 25 150 5 10 100 820 3 24 brightLabel) =
      (false, [msgHumidityRange, msgHourRange]) ∧
    msgHumidityRange ∈
      (validateESP32Data (mkBody 25 150 5 10 100 820 3 24 brightLabel)).2 ∧
    msgHourRange ∈
      (validateESP32Data (mkBody 25 150 5 10 100 820 3 24 brightLabel)).2 ∧
    msgBusVoltageRange ∈
      (validateESP32Data (mkBody 25 50 30 10 100 820 3 12 brightLabel)).2 ∧
    POSTstep [] (mkBody 25 150 5 10 100 820 3 24 brightLabel) emptyStr
      emptyStr none = ([], false) := by
  have hA := validator_c2.1 25 5 10 100 820 3 brightLabel (by norm_num)
    (by norm_num) (by norm_num) (by norm_num) (by norm_num) (by norm_num)
    (by norm_num) (by norm_num)
  refine ⟨hA, ?_, ?_, ?_, ?_⟩
  · exact validator_c2.2.1 _ (by norm_num [mkBody, JNum.ltb, JNum.gtb])
  · exact validator_c2.2.2.1 _ (by norm_num [mkBody, JNum.ltb, JNum.gtb])
  · exact validator_c2.2.2.2.1 _ _ (by
      norm_num [typeAndRangeChecks, mkBody, JNum.ltb, JNum.gtb,
        JNum.isValidNumber, JStr.isString])
  · exact validator_c2.2.2.2.2 [] _ emptyStr emptyStr none (by rw [hA])

/-- C10: the validator range-checks only temperature, humidity, light
value, wind count, bus voltage and hour; power and current are only
type-checked, so a reading whose other fields are in range passes
validation for every rational power and current value, and the processed
record carrying exactly those power and current values is placed at the
head of the retention store. -/
theorem validator_c10 (pw cur t h bv lv wc hr : ℚ) (ls : String)
    (h1 : -50 ≤ t) (h2 : t ≤ 100) (h3 : 0 ≤ h) (h4 : h ≤ 100)
    (h5 : 0 ≤ lv) (h6 : lv ≤ 4095) (h7 : 0 ≤ wc) (h8 : wc ≤ 10000)
    (h9 : 0 ≤ bv) (h10 : bv ≤ 20) (h11 : 0 ≤ hr) (h12 : hr ≤ 23)
    (store : List ProcessedSensorData) (id ts : String) (app : Option ℚ) :
    validateESP32Data (mkBody t h bv cur pw lv wc hr ls) = (true, []) ∧
    (POSTstep store (mkBody t h bv cur pw lv wc hr ls) id ts app).1.head? =
      some (processSensorData (toESP32 (mkBody t h bv cur pw lv wc hr ls))
        id ts app) ∧
    (processSensorData (toESP32 (mkBody t h bv cur pw lv wc hr ls))
      id ts app).power = pw ∧
    (processSensorData (toESP32 (mkBody t h bv cur pw lv wc hr ls))
      id ts app).current = cur := by
  have hv : validateESP32Data (mkBody t h bv cur pw lv wc hr ls) =
      (true, []) := by
    unfold validateESP32Data requiredFieldChecks typeAndRangeChecks mkBody
    norm_num [JNum.isMissing, JNum.isValidNumber, JNum.ltb, JNum.gtb,
      JStr.isMissing, JStr.isString, not_lt.mpr h1, not_lt.mpr h2,
      not_lt.mpr h3, not_lt.mpr h4, not_lt.mpr h5, not_lt.mpr h6,
      not_lt.mpr h7, not_lt.mpr h8, not_lt.mpr h9, not_lt.mpr h10,
      not_lt.mpr h11, not_lt.mpr h12]
  refine ⟨hv, ?_, rfl, rfl⟩
  unfold POSTstep
  rw [hv]
  exact storeSensorData_head _ _

/-- Witness for C10: a reading with power one million negative and a
nine-digit current passes validation and is stored. -/
theorem validator_c10_witness :
    validateESP32Data
      (mkBody 25 50 5 999999999 (-1000000) 820 3 12 brightLabel) =
      (true, []) ∧
    (POSTstep [] (mkBody 25 50 5 999999999 (-1000000) 820 3 12 brightLabel)
      emptyStr emptyStr none).1.head? =
      some (processSensorData
        (toESP32 (mkBody 25 50 5 999999999 (-1000000) 820 3 12 brightLabel))
        emptyStr emptyStr none) ∧
    (processSensorData
      (toESP32 (mkBody 25 50 5 999999999 (-1000000) 820 3 12 brightLabel))
      emptyStr emptyStr none).power = -1000000 ∧
    (processSensorData
      (toESP32 (mkBody 25 50 5 999999999 (-1000000) 820 3 12 brightLabel))
      emptyStr emptyStr none).current = 999999999 :=
  validator_c10 (-1000000) 999999999 25 50 5 820 3 12 brightLabel
    (by norm_num) (by norm_num) (by norm_num) (by norm_num) (by norm_num)
    (by norm_num) (by norm_num) (by norm_num) (by norm_num) (by norm_num)
    (by norm_num) (by norm_num) [] emptyStr emptyStr none

/-! ## Claims about the prediction engine (C5, C6, C7, C8) -/

/-- C5, counterexample: the specific-hour query path at night hour 23
emits a prediction whose source is the daytime tag
`mock-ai-prediction`, so the claimed night-distinct tagging fails on
that path. -/
theorem night_prediction_c5_counterexample :
    ¬ ((getHourPrediction [] 23 0 0 0 0 0 0).predicted_power = 0 ∧
      (getHourPrediction [] 23 0 0 0 0 0 0).source ≠ "mock-ai-prediction") := by
  intro h
  exact h.2 rfl

/-- C5 (amended): on the from-sensor path a night hour (18-23 or 0-5)
always yields predicted power exactly 0 with the night tag
`mock-ai-night` and leaves the service state untouched, independent of
all other inputs; the specific-hour query path instead tags every
prediction, night hours included, with the daytime tag
`mock-ai-prediction`. -/
theorem night_prediction_c5_amended :
    (∀ (st : AIState) (s : SensorReading) (hour now : ℤ) (u1 u : ℝ),
      18 ≤ hour ∨ hour < 6 →
      (getPredictionFromSensor st s hour now u1 u).1.predicted_power = 0 ∧
      (getPredictionFromSensor st s hour now u1 u).1.source =
        "mock-ai-night" ∧
      (getPredictionFromSensor st s hour now u1 u).2 = st) ∧
    (∀ (hist : List SensorReading) (hour : ℤ) (r1 r2 r3 r4 u1 u : ℝ),
      (getHourPrediction hist hour r1 r2 r3 r4 u1 u).source =
        "mock-ai-prediction") := by
  constructor
  · intro st s hour now u1 u h
    unfold getPredictionFromSensor
    rw [if_pos h]
    exact ⟨rfl, rfl, rfl⟩
  · intro hist hour r1 r2 r3 r4 u1 u
    rfl

/-- Witness for the amended C5 theorem at hour 23. -/
theorem night_prediction_c5_amended_witness :
    (getPredictionFromSensor staleState sampleReading 23 0 0 0).1.predicted_power = 0 ∧
    (getPredictionFromSensor staleState sampleReading 23 0 0 0).1.source =
      "mock-ai-night" ∧
    (getPredictionFromSensor staleState sampleReading 23 0 0 0).2 =
      staleState :=
  night_prediction_c5_amended.1 staleState sampleReading 23 0 0 0
    (Or.inl (by norm_num))

/-- C7: the historical adjustment is 1 when no stored entry's timestamp
hour is within one hour of the target (in particular on an empty store),
and otherwise equals the mean total-efficiency of those entries divided
by the baseline 15, clamped to [0.7, 1.3]. -/
theorem historical_adjustment_c7 :
    ∀ (hist : List SensorReading) (hour : ℤ),
      (hist.filter (fun d => decide (|d.tsHour - hour| ≤ 1)) = [] →
        calculateHistoricalAdjustment hist hour = 1) ∧
      (hist.filter (fun d => decide (|d.tsHour - hour| ≤ 1)) ≠ [] →
        calculateHistoricalAdjustment hist hour =
          max 0.7 (min 1.3
            (((hist.filter (fun d => decide (|d.tsHour - hour| ≤ 1))).map
                (fun d => d.totalEfficiency)).sum /
              ((hist.filter
                (fun d => decide (|d.tsHour - hour| ≤ 1))).length : ℝ) /
              15))) := by
  intro hist hour
  constructor
  · intro hf
    unfold calculateHistoricalAdjustment
    by_cases hh : hist.length = 0
    · rw [if_pos hh]
      norm_num
    · rw [if_neg hh, hf]
      norm_num
  · intro hf
    have hh : hist.length ≠ 0 := by
      intro h0
      rw [List.length_eq_zero] at h0
      subst h0
      simp at hf
    have hsim : (hist.filter
        (fun d => decide (|d.tsHour - hour| ≤ 1))).length ≠ 0 := by
      intro h0
      rw [List.length_eq_zero] at h0
      exact hf h0
    unfold calculateHistoricalAdjustment
    rw [if_neg hh, if_neg hsim]

/-- Witness for C7: the empty store and a one-entry store recorded at the
target hour with total efficiency 15 (adjustment exactly 1 after
clamping). -/
theorem historical_adjustment_c7_witness :
    calculateHistoricalAdjustment [] 0 = 1 ∧
    calculateHistoricalAdjustment [matchReading] 12 =
      max 0.7 (min 1.3
        ((([matchReading].filter
            (fun d => decide (|d.tsHour - 12| ≤ 1))).map
            (fun d => d.totalEfficiency)).sum /
          (([matchReading].filter
            (fun d => decide (|d.tsHour - 12| ≤ 1))).length : ℝ) / 15)) :=
  ⟨(historical_adjustment_c7 [] 0).1 (by simp),
   (historical_adjustment_c7 [matchReading] 12).2 (by simp [matchReading])⟩

/-- Rounding to two decimals preserves nonnegativity. -/
theorem round2_nonneg (x : ℝ) (h : 0 ≤ x) : 0 ≤ round2 x := by
  unfold round2
  apply div_nonneg _ (by norm_num)
  have hf : (0 : ℤ) ≤ Int.floor (x * 100 + 1/2) := by
    rw [Int.le_floor]
    push_cast
    linarith
  exact_mod_cast hf

/-- C6: a daytime prediction's power is, for some multiplier `r` in
[0.85, 1.15] (namely `0.85 + 0.3·random`), exactly the claimed product —
irradiance × 0.15 × 0.13 × (cos((h-12)π/12)·0.3 + 0.7) × temperature
factor × humidity factor × wind step factor × historical adjustment × r —
clamped to be nonnegative and rounded to two decimals, and the emitted
power is never negative. -/
theorem daytime_formula_c6 :
    ∀ (hist : List SensorReading) (s : SensorReading) (hour : ℤ)
      (u1 u : ℝ), 6 ≤ hour → hour < 18 → 0 ≤ u → u < 1 →
      (∃ r : ℝ, 0.85 ≤ r ∧ r ≤ 1.15 ∧
        (generatePrediction hist s hour u1 u).predicted_power =
          round2 (max 0 (estimateIrradiance u1 s.lightStatus * 0.15 * 0.13 *
            (Real.cos (((hour : ℝ) - 12) * Real.pi / 12) * 0.3 + 0.7) *
            (1 + (-0.004) * (s.temperature - 25)) *
            (1 - s.humidity / 100 * 0.05) *
            (if s.windCount < 5 then 1.0
              else if s.windCount < 15 then 1.02 else 0.98) *
            calculateHistoricalAdjustment hist hour * r))) ∧
      0 ≤ (generatePrediction hist s hour u1 u).predicted_power := by
  intro hist s hour u1 u h6 h18 hu0 hu1
  constructor
  · refine ⟨0.85 + u * 0.3, by linarith, by linarith, ?_⟩
    simp only [generatePrediction]
    refine congrArg round2 (congrArg (max 0) ?_)
    unfold calculateBasePower calculateTemperatureEffect
      calculateHumidityEffect calculateWindEffect
    ring
  · simp only [generatePrediction]
    exact round2_nonneg _ (le_max_left _ _)

/-- Witness for C6 at hour 12, no randomness, bright light, empty
history. -/
theorem daytime_formula_c6_witness :
    (∃ r : ℝ, 0.85 ≤ r ∧ r ≤ 1.15 ∧
      (generatePrediction [] sampleReading 12 0 0).predicted_power =
        round2 (max 0 (estimateIrradiance 0 sampleReading.lightStatus *
          0.15 * 0.13 *
          (Real.cos ((((12 : ℤ) : ℝ) - 12) * Real.pi / 12) * 0.3 + 0.7) *
          (1 + (-0.004) * (sampleReading.temperature - 25)) *
          (1 - sampleReading.humidity / 100 * 0.05) *
          (if sampleReading.windCount < 5 then 1.0
            else if sampleReading.windCount < 15 then 1.02 else 0.98) *
          calculateHistoricalAdjustment [] 12 * r))) ∧
    0 ≤ (generatePrediction [] sampleReading 12 0 0).predicted_power :=
  daytime_formula_c6 [] sampleReading 12 0 0 (by norm_num) (by norm_num)
    le_rfl (by norm_num)

/-- C8: the cache probe returns an entry only while its age is strictly
below the 5-minute TTL, so an entry whose age exceeds the TTL is never
served; consequently, starting from a state with no cached entry for the
hour, two current-hour queries within one TTL window of the first return
identical predicted power (whatever the random draws); and after expiry
the stale hour-12 entry of `staleState` is not served — the query
recomputes and can return a different power (13.26 instead of the cached
99). -/
theorem prediction_cache_c8 :
    (∀ (st : AIState) (hour now : ℤ) (p : AIPrediction),
      cacheLookup st hour now = some p →
      ∃ ts : ℤ, st.predictionCache hour = some (p, ts) ∧
        now - ts < CACHE_DURATION) ∧
    (∀ (st : AIState) (hour t0 t1 : ℤ) (u1 u u1' u' : ℝ)
      (p0 p1 : AIPrediction) (s1 s2 : AIState),
      st.predictionCache hour = none → t0 ≤ t1 →
      t1 - t0 < CACHE_DURATION →
      getCurrentHourPrediction st hour t0 u1 u = (some p0, s1) →
      getCurrentHourPrediction s1 hour t1 u1' u' = (some p1, s2) →
      p1.predicted_power = p0.predicted_power) ∧
    (cacheLookup staleState 12 (CACHE_DURATION + 1) = none ∧
      (getCurrentHourPrediction staleState 12 (CACHE_DURATION + 1) 0 0).1 =
        some (generatePrediction [sampleReading] sampleReading 12 0 0) ∧
      (generatePrediction
        [sampleReading] sampleReading 12 0 0).predicted_power = 13.26 ∧
      (13.26 : ℝ) ≠ stalePrediction.predicted_power) := by
  have hstale : cacheLookup staleState 12 (CACHE_DURATION + 1) = none := by
    unfold cacheLookup staleState
    dsimp only
    rw [if_pos rfl]
    dsimp only
    rw [if_neg (by norm_num [CACHE_DURATION])]
  refine ⟨?_, ?_, hstale, ?_, ?_, by norm_num [stalePrediction]⟩
  · intro st hour now p h
    unfold cacheLookup at h
    cases hc : st.predictionCache hour with
    | none => rw [hc] at h; exact absurd h (by simp)
    | some dts =>
      obtain ⟨d, ts⟩ := dts
      rw [hc] at h
      dsimp only at h
      by_cases hlt : now - ts < CACHE_DURATION
      · rw [if_pos hlt] at h
        obtain rfl : d = p := by injection h
        exact ⟨ts, rfl, hlt⟩
      · rw [if_neg hlt] at h
        exact absurd h (by simp)
  · intro st hour t0 t1 u1 u u1' u' p0 p1 s1 s2 hc hle hlt h1 h2
    have hcl : cacheLookup st hour t0 = none := by
      unfold cacheLookup
      rw [hc]
    unfold getCurrentHourPrediction at h1
    rw [hcl] at h1
    dsimp only at h1
    cases hl : st.historicalData.getLast? with
    | none =>
      rw [hl] at h1
      exact absurd h1 (by simp)
    | some latest =>
      rw [hl] at h1
      dsimp only at h1
      by_cases hn : 18 ≤ hour ∨ hour < 6
      · unfold getPredictionFromSensor at h1
        rw [if_pos hn] at h1
        injection h1 with ha hb
        dsimp only at ha hb
        subst hb
        have hcl1 : cacheLookup st hour t1 = none := by
          unfold cacheLookup
          rw [hc]
        unfold getCurrentHourPrediction at h2
        rw [hcl1] at h2
        dsimp only at h2
        rw [hl] at h2
        dsimp only at h2
        unfold getPredictionFromSensor at h2
        rw [if_pos hn] at h2
        injection h2 with ha2 hb2
        dsimp only at ha2
        injection ha with ha
        injection ha2 with ha2
        rw [← ha, ← ha2]
      · unfold getPredictionFromSensor at h1
        rw [if_neg hn] at h1
        dsimp only at h1
        injection h1 with ha hb
        have hcl2 : cacheLookup s1 hour t1 =
            some (generatePrediction st.historicalData latest hour u1 u) := by
          rw [← hb]
          unfold cacheLookup
          dsimp only
          rw [if_pos rfl]
          dsimp only
          rw [if_pos hlt]
        unfold getCurrentHourPrediction at h2
        rw [hcl2] at h2
        injection h2 with ha2 hb2
        injection ha2 with ha2
        injection ha with ha
        rw [← ha2, ← ha]
  · unfold getCurrentHourPrediction
    rw [hstale]
    dsimp only
    rw [show staleState.historicalData.getLast? = some sampleReading by
      simp [staleState]]
    dsimp only
    unfold getPredictionFromSensor
    rw [if_neg (by decide)]
    rfl
  · unfold generatePrediction
    dsimp only
    rw [show estimateIrradiance 0 sampleReading.lightStatus = 800 by
        simp [estimateIrradiance, irradianceMapLookup, jsOrReal,
          sampleReading]]
    rw [show calculateBasePower 800 12 = 15.6 by
        unfold calculateBasePower
        dsimp only
        rw [show ((((12 : ℤ) : ℝ)) - 12) * Real.pi / 12 = 0 by
          push_cast; ring, Real.cos_zero]
        norm_num]
    rw [show calculateTemperatureEffect sampleReading.temperature = 1 by
        norm_num [calculateTemperatureEffect, sampleReading]]
    rw [show calculateHumidityEffect sampleReading.humidity = 1 by
        norm_num [calculateHumidityEffect, sampleReading]]
    rw [show calculateWindEffect sampleReading.windCount = 1 by
        norm_num [calculateWindEffect, sampleReading]]
    rw [show calculateHistoricalAdjustment [sampleReading] 12 = 1 by
        norm_num [calculateHistoricalAdjustment, sampleReading, List.filter]]
    rw [show (15.6 * 1 * 1 * 1 * 1 * (0.85 + 0 * 0.3) : ℝ) = 13.26 by
      norm_num]
    rw [max_eq_right (by norm_num : (0:ℝ) ≤ 13.26)]
    unfold round2
    norm_num

/-- Witness for C8: a fresh hit within the TTL instantiates the lookup
conjunct, and a miss-then-recompute pair at night hour 23 on the stale
state (whose hour-23 slot is empty) instantiates the same-window
conjunct. -/
theorem prediction_cache_c8_witness :
    (∃ ts : ℤ, staleState.predictionCache 12 = some (stalePrediction, ts) ∧
      5 - ts < CACHE_DURATION) ∧
    (generateNightPrediction sampleReading 23).predicted_power =
      (generateNightPrediction sampleReading 23).predicted_power := by
  constructor
  · refine prediction_cache_c8.1 staleState 12 5 stalePrediction ?_
    unfold cacheLookup staleState
    dsimp only
    rw [if_pos rfl]
    dsimp only
    rw [if_pos (by norm_num [CACHE_DURATION])]
  · exact prediction_cache_c8.2.1 staleState 23 0 1 0 0 0 0
      (generateNightPrediction sampleReading 23)
      (generateNightPrediction sampleReading 23) staleState staleState
      (by norm_num [staleState]) (by norm_num)
      (by norm_num [CACHE_DURATION]) rfl rfl
